import Mathlib

/-!
Shallow embedding of the prediction core of the OptionsTradeMonitoring
repository (src/backend/src/scripts/predictor_service.py and
src/backend/src/scripts/predict_stock.py), with theorems checking the
specification's claims against it.

Numbers are modelled as rationals. The two fitted regression models
(scikit-learn random forest, Keras LSTM) are external-library black boxes:
they are embedded as abstract prediction functions carried in the model
artifact, while all repository-owned plumbing (scaling, windowing,
ensembling, confidence, model-store control flow) is translated from the
source.
-/

namespace OptionsTrade

/-- A feature row: the 10 feature columns of predictor_service.py
[Close, RSI, MACD, MACD_Signal, SMA_20, SMA_50, SMA_200, BBL, BBM, BBU].
Close is column 0. -/
abbrev Row : Type := Fin 10 → ℚ

/-- A 2-vector of horizon values (index 0: next day, index 1: next week). -/
abbrev Vec2 : Type := Fin 2 → ℚ

/-- Fitted state of sklearn MinMaxScaler (default feature range (0,1)):
per-column data minimum and maximum. -/
structure Scaler (n : ℕ) where
  dataMin : Fin n → ℚ
  dataMax : Fin n → ℚ

/-- sklearn per-column scale factor: 1/(max - min), a zero range being
replaced by 1 (sklearn handle_zeros_in_scale). -/
def scaleFactor (mn mx : ℚ) : ℚ := if mx - mn = 0 then 1 else 1 / (mx - mn)

/-- MinMaxScaler.transform on one column: (x - min) * scale. -/
def transformCol (mn mx x : ℚ) : ℚ := (x - mn) * scaleFactor mn mx

/-- MinMaxScaler.inverse_transform on one column: x / scale + min. -/
def invTransformCol (mn mx x : ℚ) : ℚ := x / scaleFactor mn mx + mn

def Scaler.transform {n : ℕ} (s : Scaler n) (v : Fin n → ℚ) : Fin n → ℚ :=
  fun j => transformCol (s.dataMin j) (s.dataMax j) (v j)

def Scaler.invTransform {n : ℕ} (s : Scaler n) (v : Fin n → ℚ) : Fin n → ℚ :=
  fun j => invTransformCol (s.dataMin j) (s.dataMax j) (v j)

/-- Column-wise minimum of a matrix (sklearn fit: data_min_ = X.min(axis=0)).
The empty case is never reached (sklearn refuses to fit an empty matrix). -/
def colMin {n : ℕ} (rows : List (Fin n → ℚ)) (j : Fin n) : ℚ :=
  match rows with
  | [] => 0
  | r :: rs => (rs.map (fun q => q j)).foldl min (r j)

/-- Column-wise maximum of a matrix (sklearn fit: data_max_ = X.max(axis=0)). -/
def colMax {n : ℕ} (rows : List (Fin n → ℚ)) (j : Fin n) : ℚ :=
  match rows with
  | [] => 0
  | r :: rs => (rs.map (fun q => q j)).foldl max (r j)

/-- MinMaxScaler.fit on a training matrix. -/
def fitScaler {n : ℕ} (rows : List (Fin n → ℚ)) : Scaler n :=
  ⟨colMin rows, colMax rows⟩

/-- Lines 177-178 of predictor_service.py:
diff = np.abs(rf_pred_scaled - lstm_pred_scaled).mean() (mean over the two
horizon entries); confidence = max(0, 1 - diff * 2). -/
def confidenceOf (a b : Vec2) : ℚ :=
  max 0 (1 - (|a 0 - b 0| + |a 1 - b 1|) / 2 * 2)

/-- Round trip of the min-max scaler on one column is exact over ℚ. -/
theorem invTransform_transform (mn mx x : ℚ) :
    invTransformCol mn mx (transformCol mn mx x) = x := by
  unfold invTransformCol transformCol scaleFactor
  by_cases h : mx - mn = 0
  · simp [h]
  · rw [if_neg h]
    field_simp

/-- C2: for every pair of scaled 2-vector predictions produced by the tree
model and the sequence model, the confidence value lies in [0,1]. -/
theorem confidence_in_unit_interval (a b : Vec2) :
    0 ≤ confidenceOf a b ∧ confidenceOf a b ≤ 1 := by
  refine ⟨le_max_left 0 _, ?_⟩
  unfold confidenceOf
  have h0 : 0 ≤ |a 0 - b 0| := abs_nonneg _
  have h1 : 0 ≤ |a 1 - b 1| := abs_nonneg _
  rw [max_le_iff]
  constructor
  · norm_num
  · nlinarith

/-- C3: for every fitted Scaler instance and every value x within the range
seen during fitting on column j, inverse_transform(transform(x)) equals x
within tolerance 1e-9 (the round trip is exact in this rational model). -/
theorem scaler_roundtrip_within_tol {n : ℕ} (rows : List (Fin n → ℚ)) (j : Fin n) (x : ℚ)
    (hlo : (fitScaler rows).dataMin j ≤ x) (hhi : x ≤ (fitScaler rows).dataMax j) :
    |invTransformCol ((fitScaler rows).dataMin j) ((fitScaler rows).dataMax j)
        (transformCol ((fitScaler rows).dataMin j) ((fitScaler rows).dataMax j) x) - x|
      ≤ 1 / 1000000000 := by
  rw [invTransform_transform]
  simp

/-- Witness for C3 at the concrete matrix [[0],[1]] and x = 1/2. -/
theorem scaler_roundtrip_witness :
    (fitScaler [fun _ => (0:ℚ), fun _ => 1] : Scaler 1).dataMin 0 ≤ 1/2 ∧
    (1/2 : ℚ) ≤ (fitScaler [fun _ => (0:ℚ), fun _ => 1] : Scaler 1).dataMax 0 ∧
    |invTransformCol ((fitScaler [fun _ => (0:ℚ), fun _ => 1] : Scaler 1).dataMin 0)
        ((fitScaler [fun _ => (0:ℚ), fun _ => 1] : Scaler 1).dataMax 0)
        (transformCol ((fitScaler [fun _ => (0:ℚ), fun _ => 1] : Scaler 1).dataMin 0)
          ((fitScaler [fun _ => (0:ℚ), fun _ => 1] : Scaler 1).dataMax 0) (1/2)) - 1/2|
      ≤ 1 / 1000000000 :=
  ⟨by norm_num [fitScaler, colMin], by norm_num [fitScaler, colMax],
    scaler_roundtrip_within_tol [fun _ => (0:ℚ), fun _ => 1] 0 (1/2)
      (by norm_num [fitScaler, colMin]) (by norm_num [fitScaler, colMax])⟩

/-- A trained model artifact set. The tree and sequence models themselves are
external-library objects (sklearn / Keras); they are embedded as the
prediction functions they denote. -/
structure Artifact where
  rfPredict : Row → Vec2
  lstmPredict : List Row → Vec2
  scalerX : Scaler 10
  scalerY : Scaler 2

/-- State of a persisted artifact set on disk: present and loadable, or
present but unreadable/corrupt (so joblib.load / load_model raises). -/
inductive StoredArtifact where
  | ok (a : Artifact)
  | corrupt

/-- The model store: MODELS_DIR keyed by ticker symbol. -/
abbrev Store : Type := String → Option StoredArtifact

/-- Errors a prediction request can raise in predictor_service.py. -/
inductive PredictError where
  | insufficientTrainingData
  | modelStoreIOFailure
  | reshapeError
deriving DecidableEq

/-- The value returned to the caller (forecast plus confidence). -/
structure Prediction where
  nextDay : ℚ
  nextWeek : ℚ
  confidence : ℚ
deriving DecidableEq

/-- Result of one predict(ticker) call: the returned value or the raised
error, the on-disk model store afterwards, and whether training ran. -/
structure Outcome where
  result : Except PredictError Prediction
  store : Store
  trained : Bool

/-- The external-library training procedures (RandomForest fit, LSTM fit),
abstracted as functions from the training data to the fitted predictor. -/
structure Trainers where
  fitRF : List Row → List Vec2 → (Row → Vec2)
  fitLSTM : List (List Row × Vec2) → (List Row → Vec2)

def zeroRow : Row := fun _ => 0

def zeroVec2 : Vec2 := fun _ => 0

/-- Target pair of row i: Target_Next_Day = Close.shift(-1) and
Target_Next_Week = Close.shift(-5) (lines 88-89); Close is column 0. -/
def targetAt (hist : List Row) (i : ℕ) : Vec2 :=
  fun k => if (k : ℕ) = 0 then hist.getD (i + 1) zeroRow 0 else hist.getD (i + 5) zeroRow 0

/-- Embeds train_df = df.dropna() (line 93): feature columns are all defined here,
so the dropped rows are exactly those whose shifted targets fall off the
end; the usable table is the first (length - 5) rows. -/
def usableRows (hist : List Row) : List Row := hist.take (hist.length - 5)

/-- The target matrix aligned with usableRows. -/
def usableTargets (hist : List Row) : List Vec2 :=
  (List.range (hist.length - 5)).map (targetAt hist)

/-- Lines 115-118: for i in range(60, len(X_scaled)):
X_lstm.append(X_scaled[i-60:i]); y_lstm.append(y_scaled[i]). -/
def buildWindows (Xsc : List Row) (ysc : List Vec2) : List (List Row × Vec2) :=
  (List.range' 60 (Xsc.length - 60)).foldl
    (fun acc i => acc ++ [((Xsc.drop (i - 60)).take 60, ysc.getD i zeroVec2)]) []

/-- The train_models function (lines 86-138): fit the scalers on the usable table, fit
both models on the scaled data, then save the artifact set under the ticker
key. Raises when fewer than 100 usable rows exist (lines 94-95), before
anything is written to the store. -/
def trainModels (tr : Trainers) (store : Store) (sym : String) (hist : List Row) :
    Except PredictError (Artifact × Store) :=
  let trainX := usableRows hist
  if trainX.length < 100 then .error .insufficientTrainingData
  else
    let y := usableTargets hist
    let scalerX := fitScaler trainX
    let scalerY := fitScaler y
    let Xsc := trainX.map scalerX.transform
    let ysc := y.map scalerY.transform
    let art : Artifact :=
      ⟨tr.fitRF Xsc ysc, tr.fitLSTM (buildWindows Xsc ysc), scalerX, scalerY⟩
    .ok (art, fun s => if s = sym then some (.ok art) else store s)

/-- Scaled tree-model prediction on the latest feature row
(current_features = df[features].tail(1), lines 148 and 163-164). -/
def treePredScaled (a : Artifact) (hist : List Row) : Vec2 :=
  a.rfPredict (a.scalerX.transform (hist.getLastD zeroRow))

/-- Scaled sequence-model prediction on the last 60 scaled rows
(lstm_input = scaler_X.transform(df[features].tail(60)), lines 168-170). -/
def seqPredScaled (a : Artifact) (hist : List Row) : Vec2 :=
  a.lstmPredict ((hist.drop (hist.length - 60)).map a.scalerX.transform)

/-- Inference tail of predict (lines 162-196): tree prediction, sequence
input reshape — np.reshape to (1, 60, n) raises when fewer than 60 rows
exist — equal-weight ensemble, inverse scaling, confidence. -/
def runInference (a : Artifact) (store : Store) (trained : Bool) (hist : List Row) : Outcome :=
  if hist.length < 60 then ⟨.error .reshapeError, store, trained⟩
  else
    let rfPred := treePredScaled a hist
    let lstmPred := seqPredScaled a hist
    let ens : Vec2 := fun k => (rfPred k + lstmPred k) / 2
    let final := a.scalerY.invTransform ens
    ⟨.ok ⟨final 0, final 1, confidenceOf rfPred lstmPred⟩, store, trained⟩

/-- Python str.upper() restricted to its ASCII action (ticker symbols):
maps a..z to A..Z and leaves every other character unchanged. -/
def upperChar (c : Char) : Char :=
  if 97 ≤ c.toNat ∧ c.toNat ≤ 122 then Char.ofNat (c.toNat - 32) else c

/-- Embeds ticker = ticker.upper() (line 141). -/
def upperStr (s : String) : String := ⟨s.data.map upperChar⟩

/-- The predict function (lines 140-196): upper-case the symbol, check the model
store for a persisted artifact (lines 150-160), load it when present or
train when absent, then run inference. -/
def predict (tr : Trainers) (store : Store) (s : String) (hist : List Row) : Outcome :=
  match store (upperStr s) with
  | some (.ok a) => runInference a store false hist
  | some .corrupt => ⟨.error .modelStoreIOFailure, store, false⟩
  | none =>
    match trainModels tr store (upperStr s) hist with
    | .error e => ⟨.error e, store, false⟩
    | .ok (a, store1) => runInference a store1 true hist

/-- Concrete trainers used for witnesses: constant models. -/
def tr0 : Trainers := ⟨fun _ _ => fun _ => 0, fun _ => fun _ => 0⟩

/-- Concrete artifact used for witnesses. -/
def art0 : Artifact :=
  ⟨fun _ => fun _ => 0, fun _ => fun _ => 1, ⟨fun _ => 0, fun _ => 1⟩, ⟨fun _ => 0, fun _ => 1⟩⟩

/-- A store holding a loadable artifact for symbol A. -/
def storeHit : Store := fun s => if s = "A" then some (.ok art0) else none

/-- A store holding a corrupt artifact for symbol A. -/
def storeCorrupt : Store := fun s => if s = "A" then some .corrupt else none

/-- The empty store. -/
def storeEmpty : Store := fun _ => none

theorem runInference_trained (a : Artifact) (st : Store) (b : Bool) (hist : List Row) :
    (runInference a st b hist).trained = b := by
  unfold runInference
  split <;> rfl

theorem runInference_store (a : Artifact) (st : Store) (b : Bool) (hist : List Row) :
    (runInference a st b hist).store = st := by
  unfold runInference
  split <;> rfl

theorem upperChar_idem (c : Char) : upperChar (upperChar c) = upperChar c := by
  by_cases h : 97 ≤ c.toNat ∧ c.toNat ≤ 122
  · have h1 : upperChar c = Char.ofNat (c.toNat - 32) := by
      rw [upperChar, if_pos h]
    rw [h1, upperChar, if_neg]
    obtain ⟨ha, hb⟩ := h
    generalize c.toNat = n at ha hb
    interval_cases n <;> decide
  · have h1 : upperChar c = c := by rw [upperChar, if_neg h]
    rw [h1]
    exact h1

theorem upperStr_idem (s : String) : upperStr (upperStr s) = upperStr s := by
  unfold upperStr
  simp [List.map_map, Function.comp_def, upperChar_idem]

/-- C1 counterexample: with a cached artifact for the symbol and only 59
valid rows of feature history the request does not succeed with the tree
model's output — the sequence-input reshape raises and the error
propagates, so the prediction request fails. -/
theorem short_history_no_tree_fallback_cex :
    (List.replicate 59 zeroRow).length < 60 ∧
    (predict tr0 storeHit "A" (List.replicate 59 zeroRow)).result = .error .reshapeError :=
  ⟨by decide, by rfl⟩

/-- C1 (amended): when a persisted artifact exists and the scaled feature
history ending at the latest row has fewer than 60 valid rows, the
prediction request fails with the sequence-input reshape error; there is no
fallback to the Tree Regressor alone. -/
theorem short_history_request_fails (tr : Trainers) (store : Store) (s : String)
    (hist : List Row) (a : Artifact) (hhit : store (upperStr s) = some (.ok a))
    (hlen : hist.length < 60) :
    (predict tr store s hist).result = .error .reshapeError := by
  simp [predict, hhit, runInference, hlen]

/-- Witness for the amended C1 at a concrete cached store and a 59-row
history. -/
theorem short_history_request_fails_witness :
    storeHit (upperStr "A") = some (.ok art0) ∧
    (List.replicate 59 zeroRow).length < 60 ∧
    (predict tr0 storeHit "A" (List.replicate 59 zeroRow)).result = .error .reshapeError :=
  ⟨by rfl, by decide,
    short_history_request_fails tr0 storeHit "A" (List.replicate 59 zeroRow) art0
      (by rfl) (by decide)⟩

/-- C4: on a model-store miss with fewer than 100 usable training rows, the
request fails with the insufficient-training-data error, no training
completes, and the model store is left unchanged (the saves come after the
raise and are never reached). -/
theorem insufficient_rows_fails_store_unchanged (tr : Trainers) (store : Store) (s : String)
    (hist : List Row) (hmiss : store (upperStr s) = none)
    (hlen : (usableRows hist).length < 100) :
    (predict tr store s hist).result = .error .insufficientTrainingData ∧
    (predict tr store s hist).store = store ∧
    (predict tr store s hist).trained = false := by
  simp [predict, hmiss, trainModels, hlen]

/-- Witness for C4 at the empty store and an 80-row history (75 usable
rows). -/
theorem insufficient_rows_witness :
    storeEmpty (upperStr "B") = none ∧
    (usableRows (List.replicate 80 zeroRow)).length < 100 ∧
    ((predict tr0 storeEmpty "B" (List.replicate 80 zeroRow)).result
        = .error .insufficientTrainingData ∧
      (predict tr0 storeEmpty "B" (List.replicate 80 zeroRow)).store = storeEmpty ∧
      (predict tr0 storeEmpty "B" (List.replicate 80 zeroRow)).trained = false) :=
  ⟨by rfl, by decide,
    insufficient_rows_fails_store_unchanged tr0 storeEmpty "B" (List.replicate 80 zeroRow)
      (by rfl) (by decide)⟩

/-- C6 counterexample: with an existing but corrupt persisted artifact and
ample history (200 rows), the request fails with the model-store load error
and no retraining happens — the core does not fall through to retraining. -/
theorem corrupt_artifact_hard_failure_cex :
    (predict tr0 storeCorrupt "A" (List.replicate 200 zeroRow)).result
        = .error .modelStoreIOFailure ∧
    (predict tr0 storeCorrupt "A" (List.replicate 200 zeroRow)).trained = false :=
  ⟨by rfl, by rfl⟩

/-- C6 (amended): retraining runs only when the artifact is absent; when a
persisted artifact exists but is unreadable/corrupt, the load failure
propagates and the request fails with no retraining and no store change. -/
theorem corrupt_artifact_fails (tr : Trainers) (store : Store) (s : String)
    (hist : List Row) (hc : store (upperStr s) = some .corrupt) :
    (predict tr store s hist).result = .error .modelStoreIOFailure ∧
    (predict tr store s hist).trained = false ∧
    (predict tr store s hist).store = store := by
  simp [predict, hc]

/-- Witness for the amended C6 at a concrete corrupt store. -/
theorem corrupt_artifact_fails_witness :
    storeCorrupt (upperStr "A") = some .corrupt ∧
    ((predict tr0 storeCorrupt "A" (List.replicate 200 zeroRow)).result
        = .error .modelStoreIOFailure ∧
      (predict tr0 storeCorrupt "A" (List.replicate 200 zeroRow)).trained = false ∧
      (predict tr0 storeCorrupt "A" (List.replicate 200 zeroRow)).store = storeCorrupt) :=
  ⟨by rfl,
    corrupt_artifact_fails tr0 storeCorrupt "A" (List.replicate 200 zeroRow) (by rfl)⟩

/-- C7: when both models are available (a loadable artifact and at least 60
rows of history), the combined scaled prediction is the unweighted
arithmetic mean of the tree model's and the sequence model's scaled
2-vectors, and the price-unit forecasts apply the target scaler's inverse
transform per horizon to that mean. -/
theorem ensemble_mean_inverse (tr : Trainers) (store : Store) (s : String)
    (hist : List Row) (a : Artifact) (hhit : store (upperStr s) = some (.ok a))
    (hlen : 60 ≤ hist.length) :
    (predict tr store s hist).result =
      .ok ⟨a.scalerY.invTransform
            (fun k => (treePredScaled a hist k + seqPredScaled a hist k) / 2) 0,
          a.scalerY.invTransform
            (fun k => (treePredScaled a hist k + seqPredScaled a hist k) / 2) 1,
          confidenceOf (treePredScaled a hist) (seqPredScaled a hist)⟩ := by
  have hnl : ¬ hist.length < 60 := not_lt.mpr hlen
  simp [predict, hhit, runInference, hnl]

/-- Witness for C7 at a concrete cached store and a 60-row history. -/
theorem ensemble_mean_inverse_witness :
    storeHit (upperStr "A") = some (.ok art0) ∧
    60 ≤ (List.replicate 60 zeroRow).length ∧
    (predict tr0 storeHit "A" (List.replicate 60 zeroRow)).result =
      .ok ⟨art0.scalerY.invTransform
            (fun k => (treePredScaled art0 (List.replicate 60 zeroRow) k
              + seqPredScaled art0 (List.replicate 60 zeroRow) k) / 2) 0,
          art0.scalerY.invTransform
            (fun k => (treePredScaled art0 (List.replicate 60 zeroRow) k
              + seqPredScaled art0 (List.replicate 60 zeroRow) k) / 2) 1,
          confidenceOf (treePredScaled art0 (List.replicate 60 zeroRow))
            (seqPredScaled art0 (List.replicate 60 zeroRow))⟩ :=
  ⟨by rfl, by decide,
    ensemble_mean_inverse tr0 storeHit "A" (List.replicate 60 zeroRow) art0
      (by rfl) (by decide)⟩

/-- C8: a model-store cache hit performs no training and leaves the stored
artifact (hence the whole store) unchanged, and training can only have run
when no artifact existed under the symbol. -/
theorem cache_hit_no_training (tr : Trainers) (store : Store) (s : String) (hist : List Row) :
    (∀ a : Artifact, store (upperStr s) = some (.ok a) →
      (predict tr store s hist).trained = false ∧
      (predict tr store s hist).store = store) ∧
    ((predict tr store s hist).trained = true → store (upperStr s) = none) := by
  constructor
  · intro a hhit
    simp [predict, hhit, runInference_trained, runInference_store]
  · intro ht
    cases hs : store (upperStr s) with
    | none => rfl
    | some sa =>
      cases sa with
      | ok a => simp [predict, hs, runInference_trained] at ht
      | corrupt => simp [predict, hs] at ht

/-- Witness for C8 at a concrete cached store: no training, store
unchanged. -/
theorem cache_hit_no_training_witness :
    (predict tr0 storeHit "A" (List.replicate 60 zeroRow)).trained = false ∧
    (predict tr0 storeHit "A" (List.replicate 60 zeroRow)).store = storeHit :=
  (cache_hit_no_training tr0 storeHit "A" (List.replicate 60 zeroRow)).1 art0 (by rfl)

/-- C10: predict upper-cases the symbol before any model-store access, so a
request for s and a request for uppercase(s) address the same artifact and
produce the same outcome. -/
theorem predict_upper_insensitive (tr : Trainers) (store : Store) (s : String)
    (hist : List Row) :
    predict tr store s hist = predict tr store (upperStr s) hist := by
  unfold predict
  rw [upperStr_idem]

theorem foldl_append_singleton {α β : Type} (f : α → β) :
    ∀ (l : List α) (init : List β),
      l.foldl (fun acc i => acc ++ [f i]) init = init ++ l.map f := by
  intro l
  induction l with
  | nil => intro init; simp
  | cons x xs ih => intro init; simp [ih]

/-- The windowing loop in closed form: one example per i in [60, len). -/
theorem buildWindows_eq_map (Xsc : List Row) (ysc : List Vec2) :
    buildWindows Xsc ysc = (List.range' 60 (Xsc.length - 60)).map
      (fun i => ((Xsc.drop (i - 60)).take 60, ysc.getD i zeroVec2)) := by
  unfold buildWindows
  rw [foldl_append_singleton]
  simp

/-- Concrete scaled matrix for the C5 counterexample: 61 rows. -/
def mat61 : List Row := List.replicate 61 zeroRow

/-- Concrete scaled target table: row i has target pair (i, i). -/
def tgt61 : List Vec2 := (List.range 61).map (fun i => fun _ => (i : ℚ))

/-- C5 counterexample: on a 61-row scaled matrix the single training example
is labelled with the target of row 60 — the row immediately after the
frame rows 0..59 — not with the target of the frame's last row 59. -/
theorem window_label_not_frame_last_cex :
    ((buildWindows mat61 tgt61).getD 0 ([], zeroVec2)).2 ≠ tgt61.getD 59 zeroVec2 ∧
    ((buildWindows mat61 tgt61).getD 0 ([], zeroVec2)).2 = tgt61.getD 60 zeroVec2 := by
  constructor
  · decide
  · decide

/-- C5 (amended): for a scaled matrix with at least 61 rows, training builds
one example per length-60 sliding frame that leaves at least one later row,
and the label of the example whose frame is rows j..j+59 is the scaled
target pair of row j+60, the row immediately after the frame's last row. -/
theorem window_labels_follow_frame (Xsc : List Row) (ysc : List Vec2)
    (hlen : 61 ≤ Xsc.length) (j : ℕ) (hj : j < Xsc.length - 60) :
    (buildWindows Xsc ysc).length = Xsc.length - 60 ∧
    (buildWindows Xsc ysc).getD j ([], zeroVec2)
      = ((Xsc.drop j).take 60, ysc.getD (j + 60) zeroVec2) := by
  rw [buildWindows_eq_map]
  refine ⟨by simp, ?_⟩
  have hjlen : j < ((List.range' 60 (Xsc.length - 60)).map
      (fun i => ((Xsc.drop (i - 60)).take 60, ysc.getD i zeroVec2))).length := by
    simpa using hj
  rw [List.getD_eq_getElem _ _ hjlen, List.getElem_map, List.getElem_range']
  have e1 : 60 + 1 * j - 60 = j := by omega
  have e2 : 60 + 1 * j = j + 60 := by omega
  rw [e1, e2]

/-- Witness for the amended C5 on a 61-row matrix, frame j = 0. -/
theorem window_labels_follow_frame_witness :
    61 ≤ mat61.length ∧ 0 < mat61.length - 60 ∧
    ((buildWindows mat61 tgt61).length = mat61.length - 60 ∧
      (buildWindows mat61 tgt61).getD 0 ([], zeroVec2)
        = ((mat61.drop 0).take 60, tgt61.getD (0 + 60) zeroVec2)) :=
  ⟨by decide, by decide,
    window_labels_follow_frame mat61 tgt61 (by decide) 0 (by decide)⟩

/-- Line 18 of predict_stock.py, index-wise: delta = data.diff() is undefined
at index 0 and delta.where(delta > 0, 0) sends that entry to 0, so the gain
series has a 0 slot at index 0 and max(delta, 0) afterwards. -/
def gainRaw (c : List ℚ) (i : ℕ) : ℚ :=
  if i = 0 then 0 else max (c.getD i 0 - c.getD (i - 1) 0) 0

/-- Line 19 of predict_stock.py: loss = -(delta.where(delta < 0, 0)), i.e.
max(-delta, 0), with a 0 slot at index 0. -/
def lossRaw (c : List ℚ) (i : ℕ) : ℚ :=
  if i = 0 then 0 else max (c.getD (i - 1) 0 - c.getD i 0) 0

/-- Embeds .rolling(window=14).mean() at index t (meaningful for t ≥ 13): the mean
of the 14 entries at indices t-13 .. t, traversed as t-k for k < 14. -/
def rollMean14 (f : ℕ → ℚ) (t : ℕ) : ℚ :=
  ((List.range 14).map (fun k => f (t - k))).sum / 14

/-- The calculate_rsi function (predict_stock.py lines 16-21) at index t of the close
series: rs = gain/loss; rsi = 100 - 100/(1+rs). none encodes a NaN output
(rolling warm-up shorter than 14, or the 0/0 of a flat window); a window
with gains and no losses divides by zero, which in pandas yields an
infinite rs and hence RSI = 100. -/
def calculate_rsi (c : List ℚ) (t : ℕ) : Option ℚ :=
  if t < 13 ∨ c.length ≤ t then none
  else if rollMean14 (lossRaw c) t = 0 then
    (if rollMean14 (gainRaw c) t = 0 then none else some 100)
  else some (100 - 100 / (1 + rollMean14 (gainRaw c) t / rollMean14 (lossRaw c) t))

/-- Modelled from the spec words for comparison in C9 ("Wilder-style
rolling average of gains/losses over a 14-period window"): the first
average, at index 14, is the simple mean of the first 14 entries, and each
later average is (13 * previous + current) / 14 (Wilder smoothing).
Argument of the recursion is t - 14. -/
def wilderAvgAux (raw : ℕ → ℚ) : ℕ → ℚ
  | 0 => ((List.range 14).map (fun k => raw (k + 1))).sum / 14
  | k + 1 => (wilderAvgAux raw k * 13 + raw (k + 15)) / 14

/-- Wilder-style smoothed 14-period average at index t ≥ 14. -/
def wilderAvg (raw : ℕ → ℚ) (t : ℕ) : ℚ := wilderAvgAux raw (t - 14)

/-- RSI computed with Wilder-style averages, per the spec sentence. -/
def wilderRSI (c : List ℚ) (t : ℕ) : ℚ :=
  100 - 100 / (1 + wilderAvg (gainRaw c) t / wilderAvg (lossRaw c) t)

/-- Concrete close series for the C9 counterexample: alternating +2 / -1
moves over 16 sessions. -/
def closes16 : List ℚ := [10, 12, 11, 13, 12, 14, 13, 15, 14, 16, 15, 17, 16, 18, 17, 19]

/-- C9 counterexample: on closes16 at index 15 the code's RSI is 200/3
(simple rolling means of gains and losses) while the Wilder-style RSI of
the claim is 3000/43, so the averages are not Wilder-style. -/
theorem rsi_not_wilder_cex :
    calculate_rsi closes16 15 = some (200 / 3) ∧
    wilderRSI closes16 15 = 3000 / 43 ∧
    calculate_rsi closes16 15 ≠ some (wilderRSI closes16 15) := by
  have h1 : calculate_rsi closes16 15 = some (200 / 3) := by
    norm_num [calculate_rsi, rollMean14, gainRaw, lossRaw, closes16, List.range_succ]
  have h2 : wilderRSI closes16 15 = 3000 / 43 := by
    norm_num [wilderRSI, wilderAvg, wilderAvgAux, gainRaw, lossRaw, closes16, List.range_succ]
  refine ⟨h1, h2, ?_⟩
  rw [h1, h2]
  norm_num

/-- The simple unweighted 14-period average at index t, written as an
interval sum (the amended claim's formulation). -/
def simpleAvg14 (raw : ℕ → ℚ) (t : ℕ) : ℚ := (∑ i ∈ Finset.Icc (t - 13) t, raw i) / 14

theorem sum_list_range_map (f : ℕ → ℚ) (n : ℕ) :
    ((List.range n).map f).sum = ∑ i ∈ Finset.range n, f i := by
  induction n with
  | zero => simp
  | succ m ih => rw [List.range_succ]; simp [ih, Finset.sum_range_succ]

theorem rollMean14_eq_simpleAvg14 (f : ℕ → ℚ) (t : ℕ) (ht : 13 ≤ t) :
    rollMean14 f t = simpleAvg14 f t := by
  unfold rollMean14 simpleAvg14
  rw [sum_list_range_map]
  congr 1
  rw [← Nat.Ico_succ_right, Finset.sum_Ico_eq_sum_range]
  have hc : t + 1 - (t - 13) = 14 := by omega
  rw [hc, ← Finset.sum_range_reflect]
  apply Finset.sum_congr rfl
  intro k hk
  simp only [Finset.mem_range] at hk
  congr 1
  omega

/-- C9 (amended): wherever RSI is defined with a window holding at least
one loss, calculate_rsi computes RSI = 100 - 100/(1+RS) with
RS = average gain / average loss, the averages being the simple
(unweighted) rolling means of gains and losses over the 14-period window —
not Wilder-smoothed averages. -/
theorem rsi_simple_rolling_mean (c : List ℚ) (t : ℕ) (ht : 13 ≤ t) (htl : t < c.length)
    (hl : simpleAvg14 (lossRaw c) t ≠ 0) :
    calculate_rsi c t
      = some (100 - 100 / (1 + simpleAvg14 (gainRaw c) t / simpleAvg14 (lossRaw c) t)) := by
  unfold calculate_rsi
  have h1 : ¬ (t < 13 ∨ c.length ≤ t) := by omega
  rw [if_neg h1, rollMean14_eq_simpleAvg14 _ _ ht, rollMean14_eq_simpleAvg14 _ _ ht,
    if_neg hl]

/-- Witness for the amended C9 on closes16 at index 15. -/
theorem rsi_simple_rolling_mean_witness :
    13 ≤ 15 ∧ 15 < closes16.length ∧ simpleAvg14 (lossRaw closes16) 15 ≠ 0 ∧
    calculate_rsi closes16 15
      = some (100 - 100 / (1 + simpleAvg14 (gainRaw closes16) 15
          / simpleAvg14 (lossRaw closes16) 15)) := by
  have hl : simpleAvg14 (lossRaw closes16) 15 ≠ 0 := by
    rw [← rollMean14_eq_simpleAvg14 _ _ (by norm_num)]
    norm_num [rollMean14, lossRaw, closes16, List.range_succ]
  exact ⟨by norm_num, by norm_num [closes16], hl,
    rsi_simple_rolling_mean closes16 15 (by norm_num) (by norm_num [closes16]) hl⟩

end OptionsTrade
